import Mathlib

/-!
# Verification of the message-board web application (`app.py`)

A shallow embedding of the single source file of the repository: two record
types (`Topic`, `Message`) stored in a relational store, a session gate
(`login_required`, `login`), and four board operations (`list_topics`,
`view_topic`, `new_topic`, `add_message`).

Modelling conventions:
* Python strings are lists of characters (`PyStr`), so that Python slicing
  `s[:n]` is `List.take n`, `len` is `List.length`, and the truthiness test
  `if s:` on an optional string is `truthy`.
* The SQLite store is a `BoardState`: the rows of both tables plus the next
  auto-increment primary key of each table and the server clock (used for
  the `created_at` column, `db.func.now()`).
* `ORDER BY id DESC` queries are an insertion sort by a `Nat` key,
  descending (`orderByIdDesc`).
* Flask-SQLAlchemy `paginate(page=page, per_page=10)` is modelled with its
  default `error_out=True` behaviour: a page number below 1, or an empty
  page other than page 1, aborts with HTTP 404 (`none` here); otherwise the
  slice `items[ (page-1)*per_page : page*per_page ]` is returned.
* HTTP 404 (`get_or_404`, pagination abort) is `BoardError.notFound`;
  `flash(...)` + redirect-back on bad input is a `validationError` carrying
  the flashed text; redirects carry their target.
-/

set_option maxRecDepth 8000

/-- Python strings, as lists of characters. -/
abbrev PyStr := List Char

/-- Python truthiness of an optional string (`if s:`): `None` and the empty
string are falsy, every other string is truthy. -/
def truthy : Option PyStr → Bool
  | none => false
  | some s => !s.isEmpty

/-- Row of the `topic` table: `id` integer primary key, `title` string
column (SQLite does not enforce the declared length 100). -/
structure Topic where
  id : Nat
  title : PyStr
deriving DecidableEq, Repr

/-- Row of the `message` table: `id` integer primary key, `content` string,
optional `username`, `topic_id` foreign key, `created_at` server default
timestamp. -/
structure Message where
  id : Nat
  content : PyStr
  username : Option PyStr
  topic_id : Nat
  created_at : Nat
deriving DecidableEq, Repr

/-- The persistent store (`board.db`) plus the server clock: rows of both
tables, and the next auto-increment id of each table. -/
structure BoardState where
  topics : List Topic
  messages : List Message
  nextTopicId : Nat
  nextMessageId : Nat
  clock : Nat
deriving DecidableEq, Repr

/-- HTTP-level errors surfaced by the board routes. -/
inductive BoardError where
  | notFound
deriving DecidableEq, Repr

/-- One step of the descending insertion sort: place `x` before the first
element whose key is not above `key x`. -/
def insertByKeyDesc {α : Type} (key : α → Nat) (x : α) : List α → List α
  | [] => [x]
  | y :: ys => if key y ≤ key x then x :: y :: ys else y :: insertByKeyDesc key x ys

/-- `ORDER BY key DESC` over a list of rows. -/
def orderByIdDesc {α : Type} (key : α → Nat) (l : List α) : List α :=
  l.foldr (insertByKeyDesc key) []

/-- `GET /` handler body: `Topic.query.order_by(Topic.id.desc()).all()`. -/
def list_topics (s : BoardState) : List Topic :=
  orderByIdDesc Topic.id s.topics

/-- Flask-SQLAlchemy `paginate` with the default `error_out=True`:
404 (`none`) when `page < 1`, or when the requested slice is empty and
`page ≠ 1`; otherwise the ten-row slice for `page`. -/
def paginate (items : List Message) (page : Int) (per_page : Nat) :
    Option (List Message) :=
  if page < 1 then none
  else
    let pageItems := (items.drop ((page - 1).toNat * per_page)).take per_page
    if pageItems.isEmpty && page != 1 then none else some pageItems

/-- `Message.query.filter_by(topic_id=topic_id).order_by(Message.id.desc())`. -/
def topicMessagesDesc (s : BoardState) (topic_id : Nat) : List Message :=
  orderByIdDesc Message.id (s.messages.filter (fun m => m.topic_id == topic_id))

/-- `GET /topic/<int:topic_id>` handler body: `Topic.query.get_or_404`,
then the topic's messages newest-first paginated at `per_page=10`. -/
def view_topic (s : BoardState) (topic_id : Nat) (page : Int) :
    Except BoardError (Topic × List Message) :=
  match s.topics.find? (fun t => t.id == topic_id) with
  | none => .error .notFound
  | some topic =>
    match paginate (topicMessagesDesc s topic_id) page 10 with
    | none => .error .notFound
    | some items => .ok (topic, items)

/-- The same route including `request.args.get('page', 1, type=int)`:
a missing (or unparsable) `page` query parameter defaults to `1`. -/
def view_topic_route (s : BoardState) (topic_id : Nat) (pageArg : Option Int) :
    Except BoardError (Topic × List Message) :=
  view_topic s topic_id (pageArg.getD 1)

/-- Outcome of `POST /topic/new`. -/
inductive NewTopicResult where
  | validationError (flash : String)
  | redirectToTopic (topic_id : Nat)
deriving DecidableEq, Repr

/-- `POST /topic/new` handler body: `title = request.form.get('title')`;
`if title:` persist a `Topic(title=title)` and redirect to its view, else
flash `'Topic title cannot be empty'` and re-render the form. The title is
not trimmed and not truncated. -/
def new_topic (s : BoardState) (title : Option PyStr) :
    BoardState × NewTopicResult :=
  if truthy title then
    let topic : Topic := { id := s.nextTopicId, title := title.getD [] }
    ({ s with topics := s.topics ++ [topic], nextTopicId := s.nextTopicId + 1 },
     .redirectToTopic topic.id)
  else
    (s, .validationError "Topic title cannot be empty")

/-- Outcome of `POST /topic/<int:topic_id>/message`: either a flash +
redirect back with nothing stored, or a redirect to the topic view,
together with the `username` cookie set on the response (value and
`max_age` in seconds), if any. -/
inductive AddMessageResult where
  | validationError (flash : String)
  | posted (topic_id : Nat) (cookie : Option (PyStr × Nat))
deriving DecidableEq, Repr

/-- `POST /topic/<int:topic_id>/message` handler body: empty/missing
`content` flashes `'Message cannot be empty'` and stores nothing; otherwise
a `Message` is persisted with `content[:300]`,
`username[:50] if username else None`, the given `topic_id` (no existence
check) and a server-assigned timestamp, and the response carries a 30-day
`username` cookie exactly when a username was supplied (untruncated). -/
def add_message (s : BoardState) (topic_id : Nat)
    (content username : Option PyStr) : BoardState × AddMessageResult :=
  if !truthy content then
    (s, .validationError "Message cannot be empty")
  else
    let m : Message :=
      { id := s.nextMessageId
        content := (content.getD []).take 300
        username := if truthy username then some ((username.getD []).take 50) else none
        topic_id := topic_id
        created_at := s.clock }
    ({ s with messages := s.messages ++ [m], nextMessageId := s.nextMessageId + 1 },
     .posted topic_id (if truthy username then some (username.getD [], 2592000) else none))

/-- Result of a request that passed through the `login_required`
decorator: either a redirect to `/login` carrying `next=request.url`, or
the wrapped handler's result. -/
inductive GateResult (α : Type) where
  | redirectLogin (next : String)
  | ok (a : α)
deriving DecidableEq, Repr

/-- The `login_required` decorator: if `'authenticated' not in session`,
redirect to the login page preserving the requested URL; otherwise run the
wrapped handler. -/
def login_required {α : Type} (f : Unit → α) (authenticated : Bool)
    (request_url : String) : GateResult α :=
  if authenticated then .ok (f ()) else .redirectLogin request_url

/-- Outcome of `POST /login`. -/
inductive LoginResult where
  | redirect (target : String)
  | invalidPassword (flash : String)
deriving DecidableEq, Repr

/-- Python truthiness of the optional `next` query parameter
(`redirect(next_page) if next_page else ...`): `None` and the empty string
are falsy. -/
def truthyStr : Option String → Bool
  | none => false
  | some s => !(s == "")

/-- `POST /login` handler body: compare the submitted form password with
`BOARD_PASSWORD`; on match mark the session authenticated and redirect to
the `next` query parameter if truthy, else to the topic list `/`; on
mismatch flash `'Invalid password'` and re-render the login form. Returns
the new session flag and the response. -/
def login (board_password password : Option PyStr) (next? : Option String)
    (authenticated : Bool) : Bool × LoginResult :=
  if password = board_password then
    (true, if truthyStr next? then .redirect (next?.getD "/")
           else .redirect "/")
  else
    (authenticated, .invalidPassword "Invalid password")

/-- `GET /` with its `login_required` gate. -/
def route_list_topics (s : BoardState) (authenticated : Bool)
    (request_url : String) : GateResult (List Topic) :=
  login_required (fun _ => list_topics s) authenticated request_url

/-- `GET /topic/<int:topic_id>` with its `login_required` gate. -/
def route_view_topic (s : BoardState) (authenticated : Bool)
    (request_url : String) (topic_id : Nat) (pageArg : Option Int) :
    GateResult (Except BoardError (Topic × List Message)) :=
  login_required (fun _ => view_topic_route s topic_id pageArg) authenticated request_url

/-- `POST /topic/new` with its `login_required` gate. -/
def route_new_topic (s : BoardState) (authenticated : Bool)
    (request_url : String) (title : Option PyStr) :
    GateResult (BoardState × NewTopicResult) :=
  login_required (fun _ => new_topic s title) authenticated request_url

/-- `POST /topic/<int:topic_id>/message` with its `login_required` gate. -/
def route_add_message (s : BoardState) (authenticated : Bool)
    (request_url : String) (topic_id : Nat) (content username : Option PyStr) :
    GateResult (BoardState × AddMessageResult) :=
  login_required (fun _ => add_message s topic_id content username)
    authenticated request_url

/-! ## Concrete test states -/

/-- The freshly created empty database. -/
def st0 : BoardState :=
  { topics := [], messages := [], nextTopicId := 1, nextMessageId := 1, clock := 0 }

/-- A database holding one topic (id 1) and no messages. -/
def stT1 : BoardState :=
  { topics := [{ id := 1, title := ['t'] }], messages := [],
    nextTopicId := 2, nextMessageId := 1, clock := 0 }

/-- A database holding one topic (id 1) with 25 messages, ids 1..25. -/
def st25 : BoardState :=
  { topics := [{ id := 1, title := ['t'] }],
    messages := (List.range 25).map (fun i =>
      { id := i + 1, content := ['m'], username := none, topic_id := 1,
        created_at := 0 }),
    nextTopicId := 2, nextMessageId := 26, clock := 0 }

instance {ε α : Type} [DecidableEq ε] [DecidableEq α] : DecidableEq (Except ε α)
  | .error e, .error e' =>
    if h : e = e' then .isTrue (by rw [h])
    else .isFalse (fun hh => h (Except.error.inj hh))
  | .error _, .ok _ => .isFalse (fun h => Except.noConfusion h)
  | .ok _, .error _ => .isFalse (fun h => Except.noConfusion h)
  | .ok a, .ok a' =>
    if h : a = a' then .isTrue (by rw [h])
    else .isFalse (fun hh => h (Except.ok.inj hh))

example : (view_topic st25 1 1).map (fun p => p.2.map Message.id) =
    .ok [25, 24, 23, 22, 21, 20, 19, 18, 17, 16] := by decide

example : (view_topic st25 1 3).map (fun p => p.2.map Message.id) =
    .ok [5, 4, 3, 2, 1] := by decide

example : view_topic st25 1 4 = .error .notFound := by decide

example : view_topic stT1 1 2 = .error .notFound := by decide

example : new_topic st0 (some [' ']) =
    ({ st0 with topics := [{ id := 1, title := [' '] }], nextTopicId := 2 },
     .redirectToTopic 1) := by decide

/-! ## Lemmas about the descending insertion sort -/

theorem mem_insertByKeyDesc {α : Type} {key : α → Nat} {x a : α} :
    ∀ {l : List α}, a ∈ insertByKeyDesc key x l ↔ a = x ∨ a ∈ l := by
  intro l
  induction l with
  | nil => simp [insertByKeyDesc]
  | cons y ys ih =>
    by_cases h : key y ≤ key x
    · simp [insertByKeyDesc, h]
    · simp only [insertByKeyDesc, if_neg h, List.mem_cons, ih]
      tauto

theorem length_insertByKeyDesc {α : Type} {key : α → Nat} {x : α} :
    ∀ {l : List α}, (insertByKeyDesc key x l).length = l.length + 1 := by
  intro l
  induction l with
  | nil => rfl
  | cons y ys ih =>
    by_cases h : key y ≤ key x
    · simp [insertByKeyDesc, h]
    · simp [insertByKeyDesc, h, ih]

theorem pairwise_insertByKeyDesc {α : Type} {key : α → Nat} {x : α} :
    ∀ {l : List α}, l.Pairwise (fun a b => key b ≤ key a) →
      (insertByKeyDesc key x l).Pairwise (fun a b => key b ≤ key a) := by
  intro l
  induction l with
  | nil => intro _; simp [insertByKeyDesc]
  | cons y ys ih =>
    intro hl
    rw [List.pairwise_cons] at hl
    obtain ⟨hy, hys⟩ := hl
    by_cases h : key y ≤ key x
    · rw [insertByKeyDesc, if_pos h, List.pairwise_cons]
      refine ⟨?_, List.pairwise_cons.mpr ⟨hy, hys⟩⟩
      intro b hb
      rcases List.mem_cons.mp hb with rfl | hb
      · exact h
      · exact le_trans (hy b hb) h
    · rw [insertByKeyDesc, if_neg h, List.pairwise_cons]
      refine ⟨?_, ih hys⟩
      intro b hb
      rcases mem_insertByKeyDesc.mp hb with rfl | hb
      · exact le_of_not_le h
      · exact hy b hb

theorem mem_orderByIdDesc {α : Type} {key : α → Nat} {a : α} :
    ∀ {l : List α}, a ∈ orderByIdDesc key l ↔ a ∈ l := by
  intro l
  induction l with
  | nil => simp [orderByIdDesc]
  | cons y ys ih =>
    show a ∈ insertByKeyDesc key y (orderByIdDesc key ys) ↔ _
    rw [mem_insertByKeyDesc, ih]
    simp

theorem length_orderByIdDesc {α : Type} {key : α → Nat} :
    ∀ {l : List α}, (orderByIdDesc key l).length = l.length := by
  intro l
  induction l with
  | nil => rfl
  | cons y ys ih =>
    show (insertByKeyDesc key y (orderByIdDesc key ys)).length = ys.length + 1
    rw [length_insertByKeyDesc, ih]

theorem pairwise_orderByIdDesc {α : Type} {key : α → Nat} :
    ∀ {l : List α}, (orderByIdDesc key l).Pairwise (fun a b => key b ≤ key a) := by
  intro l
  induction l with
  | nil => exact List.Pairwise.nil
  | cons y ys ih => exact pairwise_insertByKeyDesc ih

/-- Appending a row whose key is strictly above every existing key and
sorting descending puts that row first. -/
theorem head_orderByIdDesc_append_max {α : Type} {key : α → Nat}
    {l : List α} {x : α} (h : ∀ y ∈ l, key y < key x) :
    (orderByIdDesc key (l ++ [x])).head? = some x := by
  cases hr : orderByIdDesc key (l ++ [x]) with
  | nil =>
    have := @length_orderByIdDesc α key (l ++ [x])
    rw [hr] at this
    simp at this
  | cons hd tl =>
    have hmemhd : hd ∈ l ++ [x] := by
      rw [← @mem_orderByIdDesc α key hd, hr]; exact List.mem_cons_self _ _
    have hmemx : x ∈ hd :: tl := by
      rw [← hr, mem_orderByIdDesc]; simp
    have hpw : (hd :: tl).Pairwise (fun a b => key b ≤ key a) := by
      rw [← hr]; exact pairwise_orderByIdDesc
    have hle : ∀ b ∈ tl, key b ≤ key hd := (List.pairwise_cons.mp hpw).1
    rcases List.mem_append.mp hmemhd with hhl | hhx
    · exfalso
      rcases List.mem_cons.mp hmemx with rfl | hxtl
      · exact lt_irrefl _ (h _ hhl)
      · exact absurd (hle _ hxtl) (not_le_of_lt (h _ hhl))
    · simp only [List.mem_singleton] at hhx
      simp [hhx]

/-! ## Inversion lemmas for the pagination and the topic lookup -/

theorem paginate_eq_some {l : List Message} {page : Int} {pp : Nat}
    {items : List Message} (h : paginate l page pp = some items) :
    1 ≤ page ∧ items = (l.drop ((page - 1).toNat * pp)).take pp := by
  simp only [paginate] at h
  split at h
  · exact absurd h (by simp)
  · next hp =>
    split at h
    · exact absurd h (by simp)
    · exact ⟨by omega, (Option.some.inj h).symm⟩

theorem paginate_page_one (l : List Message) (pp : Nat) :
    paginate l 1 pp = some (l.take pp) := by
  unfold paginate
  norm_num

theorem view_topic_eq_ok {s : BoardState} {tid : Nat} {page : Int}
    {t : Topic} {items : List Message}
    (h : view_topic s tid page = .ok (t, items)) :
    s.topics.find? (fun x => x.id == tid) = some t ∧
    paginate (topicMessagesDesc s tid) page 10 = some items := by
  unfold view_topic at h
  split at h
  · exact absurd h (by simp)
  · next t' hf =>
    split at h
    · exact absurd h (by simp)
    · next its hp =>
      have h2 := Except.ok.inj h
      rw [Prod.mk.injEq] at h2
      obtain ⟨h3, h4⟩ := h2
      exact ⟨h3 ▸ hf, h4 ▸ hp⟩

theorem truthy_not_of_ne_nil {c : PyStr} (hc : c ≠ []) :
    (!truthy (some c)) = false := by
  cases c with
  | nil => exact absurd rfl hc
  | cons a as => rfl

/-- Evaluation of `add_message` on non-empty content: the message row that
is inserted and the response that is returned. -/
theorem add_message_success (s : BoardState) (tid : Nat) (c : PyStr)
    (u : Option PyStr) (hc : c ≠ []) :
    add_message s tid (some c) u =
      ({ s with
          messages := s.messages ++
            [{ id := s.nextMessageId, content := c.take 300,
               username := if truthy u then some ((u.getD []).take 50) else none,
               topic_id := tid, created_at := s.clock }],
          nextMessageId := s.nextMessageId + 1 },
       .posted tid (if truthy u then some (u.getD [], 2592000) else none)) := by
  rw [add_message, truthy_not_of_ne_nil hc]
  rfl

/-! ## Claim theorems -/

/-- Claim C3 (confirmed): for every content string longer than 300
characters passed to `add_message` (with any valid topic), the stored
message's content is exactly the first 300 characters of the input (a
length-300 prefix); content of at most 300 characters is stored
unchanged. -/
theorem add_message_truncates_content (s : BoardState) (tid : Nat)
    (c : PyStr) (u : Option PyStr) (t : Topic)
    (_htopic : s.topics.find? (fun x => x.id == tid) = some t)
    (hc : c ≠ []) :
    ∃ m : Message,
      (add_message s tid (some c) u).1.messages = s.messages ++ [m] ∧
      m.content = c.take 300 ∧
      (300 < c.length → m.content.length = 300 ∧ ∃ rest, c = m.content ++ rest) ∧
      (c.length ≤ 300 → m.content = c) := by
  refine ⟨{ id := s.nextMessageId, content := c.take 300,
            username := if truthy u then some ((u.getD []).take 50) else none,
            topic_id := tid, created_at := s.clock }, ?_, rfl, ?_, ?_⟩
  · rw [add_message_success s tid c u hc]
  · intro hlong
    refine ⟨?_, c.drop 300, (List.take_append_drop 300 c).symm⟩
    rw [List.length_take]
    omega
  · intro hshort
    exact List.take_of_length_le hshort

/-- Claim C4 (confirmed): a username longer than 50 characters is stored as
exactly its first 50 characters (a length-50 prefix); an omitted username
is stored as absent (`none`), not the empty string. -/
theorem add_message_truncates_username (s : BoardState) (tid : Nat)
    (c : PyStr) (hc : c ≠ []) :
    (∀ uu : PyStr, 50 < uu.length →
      ∃ m : Message,
        (add_message s tid (some c) (some uu)).1.messages = s.messages ++ [m] ∧
        m.username = some (uu.take 50) ∧ (uu.take 50).length = 50 ∧
        ∃ rest, uu = uu.take 50 ++ rest) ∧
    (∃ m : Message,
      (add_message s tid (some c) none).1.messages = s.messages ++ [m] ∧
      m.username = none) := by
  constructor
  · intro uu hu
    have huu : truthy (some uu) = true := by
      cases uu with
      | nil => simp at hu
      | cons a as => rfl
    refine ⟨{ id := s.nextMessageId, content := c.take 300,
              username := some (uu.take 50),
              topic_id := tid, created_at := s.clock }, ?_, rfl, ?_,
            uu.drop 50, (List.take_append_drop 50 uu).symm⟩
    · rw [add_message_success s tid c (some uu) hc, huu]
      rfl
    · rw [List.length_take]
      omega
  · refine ⟨{ id := s.nextMessageId, content := c.take 300,
              username := none,
              topic_id := tid, created_at := s.clock }, ?_, rfl⟩
    rw [add_message_success s tid c none hc]
    rfl

/-- Claim C8 (confirmed): `add_message` with empty (or missing) content
fails with a validation error carrying the user-visible flash text
`'Message cannot be empty'`, and the store is unchanged: no message (and no
topic) is persisted. -/
theorem add_message_empty_content_rejected (s : BoardState) (tid : Nat)
    (content username : Option PyStr) (hc : truthy content = false) :
    add_message s tid content username =
      (s, .validationError "Message cannot be empty") ∧
    (add_message s tid content username).1.messages = s.messages ∧
    (add_message s tid content username).1.topics = s.topics := by
  have : add_message s tid content username =
      (s, .validationError "Message cannot be empty") := by
    simp [add_message, hc]
  exact ⟨this, by rw [this], by rw [this]⟩

/-- Claim C10 (confirmed): posting with non-empty content and a username
supplied as the empty string behaves exactly like omitting the username:
the whole call is identical to the username-less call, the stored
message's username is `none`, and no `username` cookie is set on the
response. -/
theorem add_message_empty_username_like_none (s : BoardState) (tid : Nat)
    (c : PyStr) (hc : c ≠ []) :
    add_message s tid (some c) (some []) = add_message s tid (some c) none ∧
    (∃ m : Message,
      (add_message s tid (some c) (some [])).1.messages = s.messages ++ [m] ∧
      m.username = none) ∧
    (add_message s tid (some c) (some [])).2 = .posted tid none := by
  have h1 := add_message_success s tid c (some []) hc
  refine ⟨rfl, ⟨Message.mk s.nextMessageId (c.take 300) none tid s.clock,
                ?_, rfl⟩, ?_⟩
  · rw [h1]
    rfl
  · rw [h1]
    rfl

/-- Claim C9 (confirmed): each of the four protected operations invoked
without an authenticated session redirects to the login page preserving the
requested URL; a login with the correct board password authenticates the
session and redirects to the preserved (non-empty) destination, or to the
topic list `/` when no destination was preserved (an absent `next` — and
likewise an empty one, which Python truthiness treats the same); with a
session the gate lets the handler run. -/
theorem session_gate_roundtrip :
    (∀ (s : BoardState) (url : String) (tid : Nat) (pageArg : Option Int)
       (title content username : Option PyStr),
      route_list_topics s false url = .redirectLogin url ∧
      route_view_topic s false url tid pageArg = .redirectLogin url ∧
      route_new_topic s false url title = .redirectLogin url ∧
      route_add_message s false url tid content username = .redirectLogin url) ∧
    (∀ (pw : PyStr) (nxt : String) (auth : Bool), nxt ≠ "" →
      login (some pw) (some pw) (some nxt) auth = (true, .redirect nxt)) ∧
    (∀ (pw : PyStr) (auth : Bool),
      login (some pw) (some pw) none auth = (true, .redirect "/")) ∧
    (∀ (pw : PyStr) (auth : Bool),
      login (some pw) (some pw) (some "") auth = (true, .redirect "/")) ∧
    (∀ (s : BoardState) (url : String),
      route_list_topics s true url = .ok (list_topics s)) := by
  refine ⟨?_, ?_, ?_, ?_, ?_⟩
  · intro s url tid pageArg title content username
    exact ⟨rfl, rfl, rfl, rfl⟩
  · intro pw nxt auth hne
    simp [login, truthyStr, hne]
  · intro pw auth
    simp [login, truthyStr]
  · intro pw auth
    simp [login, truthyStr]
  · intro s url
    rfl

/-- Witness instantiating `session_gate_roundtrip`'s redirect-to-next
conjunct at the preserved destination `/topic/1`. -/
theorem session_gate_roundtrip_witness :
    ("/topic/1" : String) ≠ "" ∧
    login (some ['p']) (some ['p']) (some "/topic/1") false =
      (true, .redirect "/topic/1") :=
  ⟨by decide,
   session_gate_roundtrip.2.1 ['p'] "/topic/1" false (by decide)⟩

/-- Claim C1 (corrected): the claim says a page beyond the last page of an
existing topic yields an empty page; in fact `paginate` runs with its
default `error_out=True`, so an out-of-range page (page ≥ 2 whose slice is
empty) aborts with HTTP 404: `view_topic` fails with `notFound`, it does
not return an empty page. -/
theorem view_topic_page_beyond_last_404 (s : BoardState) (tid : Nat)
    (t : Topic) (page : Int)
    (htopic : s.topics.find? (fun x => x.id == tid) = some t)
    (hpage : 2 ≤ page)
    (hbeyond : (s.messages.filter (fun m => m.topic_id == tid)).length ≤
      (page - 1).toNat * 10) :
    view_topic s tid page = .error .notFound := by
  have hlen : (topicMessagesDesc s tid).length ≤ (page - 1).toNat * 10 := by
    rw [topicMessagesDesc, length_orderByIdDesc]
    exact hbeyond
  have hdrop : (topicMessagesDesc s tid).drop ((page - 1).toNat * 10) = [] :=
    List.drop_eq_nil_of_le hlen
  have hne1 : (page != 1) = true := by
    simp only [bne_iff_ne, ne_eq]
    omega
  have hpag : paginate (topicMessagesDesc s tid) page 10 = none := by
    simp only [paginate, hdrop, List.take_nil, List.isEmpty_nil, Bool.true_and,
      hne1, if_true]
    rw [if_neg (by omega : ¬ page < 1)]
  simp only [view_topic, htopic, hpag]

/-- Concrete refutation of claim C1 as stated: the topic with id 1 exists
and holds exactly 25 messages, yet requesting page 4 returns the 404
error, not an empty page. -/
theorem view_topic_page_beyond_last_counterexample :
    st25.topics.find? (fun t => t.id == 1) = some { id := 1, title := ['t'] } ∧
    (st25.messages.filter (fun m => m.topic_id == 1)).length = 25 ∧
    view_topic st25 1 4 = .error .notFound := by decide

/-- Witness instantiating `view_topic_page_beyond_last_404` at the
25-message topic and page 4. -/
theorem view_topic_page_beyond_last_404_witness :
    (st25.topics.find? (fun x => x.id == 1) = some { id := 1, title := ['t'] } ∧
     (2 : Int) ≤ 4 ∧
     (st25.messages.filter (fun m => m.topic_id == 1)).length ≤
       ((4 : Int) - 1).toNat * 10) ∧
    view_topic st25 1 4 = .error .notFound :=
  ⟨⟨by decide, by decide, by decide⟩,
   view_topic_page_beyond_last_404 st25 1 { id := 1, title := ['t'] } 4
     (by decide) (by decide) (by decide)⟩

/-- Claim C2 (corrected): the handler performs no trimming — it only tests
Python truthiness of the submitted title. A missing or empty title is
rejected with the flash `'Topic title cannot be empty'` and nothing is
persisted, while every non-empty title — including whitespace-only ones a
trimming check would reject — is persisted with the fresh auto-increment id
and the caller is redirected to that topic's view. -/
theorem create_topic_validation (s : BoardState) (title : Option PyStr) :
    (truthy title = false →
      new_topic s title = (s, .validationError "Topic title cannot be empty")) ∧
    (∀ t : PyStr, title = some t → t ≠ [] →
      new_topic s title =
        ({ s with topics := s.topics ++ [{ id := s.nextTopicId, title := t }],
                  nextTopicId := s.nextTopicId + 1 },
         .redirectToTopic s.nextTopicId)) := by
  constructor
  · intro hfalse
    rw [new_topic, hfalse]
    rfl
  · intro t hsome ht
    subst hsome
    rw [new_topic, show truthy (some t) = true by
      cases t with
      | nil => exact absurd rfl ht
      | cons a as => rfl]
    rfl

/-- Concrete refutation of claim C2 as stated: a whitespace-only title
(empty after trimming) is not rejected — a topic is persisted and the
caller is redirected to it. -/
theorem create_topic_whitespace_counterexample :
    (new_topic st0 (some [' '])).1.topics = [{ id := 1, title := [' '] }] ∧
    (new_topic st0 (some [' '])).2 = .redirectToTopic 1 := by decide

/-- Witness instantiating `create_topic_validation` at an absent title and
at the one-character title `"a"`. -/
theorem create_topic_validation_witness :
    (truthy none = false ∧
     new_topic st0 none = (st0, .validationError "Topic title cannot be empty")) ∧
    new_topic st0 (some ['a']) =
      ({ st0 with topics := [{ id := 1, title := ['a'] }], nextTopicId := 2 },
       .redirectToTopic 1) :=
  ⟨⟨by decide, (create_topic_validation st0 none).1 (by decide)⟩,
   (create_topic_validation st0 (some ['a'])).2 ['a'] rfl (by decide)⟩

/-- Claim C7 (corrected): `view_topic` fails with `notFound` for every
topic id that does not reference an existing topic (at every page); for an
existing topic id it succeeds at the default page 1 — but, contrary to the
claim's unqualified second half, an existing topic can still yield
`notFound` when the caller supplies an out-of-range page. -/
theorem view_topic_not_found_lookup (s : BoardState) (tid : Nat) :
    (s.topics.find? (fun t => t.id == tid) = none →
      ∀ page : Int, view_topic s tid page = .error .notFound) ∧
    (∀ t : Topic, s.topics.find? (fun t' => t'.id == tid) = some t →
      ∃ items, view_topic s tid 1 = .ok (t, items)) := by
  constructor
  · intro hnone page
    simp only [view_topic, hnone]
  · intro t hsome
    refine ⟨(topicMessagesDesc s tid).take 10, ?_⟩
    simp only [view_topic, hsome, paginate_page_one]

/-- Concrete refutation of claim C7 as stated: topic 1 exists (with no
messages), yet `view_topic` at page 2 fails with `notFound`. -/
theorem view_topic_existing_404_counterexample :
    stT1.topics.find? (fun t => t.id == 1) = some { id := 1, title := ['t'] } ∧
    view_topic stT1 1 2 = .error .notFound := by decide

/-- Witness instantiating `view_topic_not_found_lookup`: the empty store
has no topic 7 and the lookup 404s; the one-topic store resolves topic 1 at
page 1. -/
theorem view_topic_not_found_lookup_witness :
    (st0.topics.find? (fun t => t.id == 7) = none ∧
     view_topic st0 7 3 = .error .notFound) ∧
    (stT1.topics.find? (fun t => t.id == 1) = some { id := 1, title := ['t'] } ∧
     ∃ items, view_topic stT1 1 1 = .ok ({ id := 1, title := ['t'] }, items)) :=
  ⟨⟨by decide, (view_topic_not_found_lookup st0 7).1 (by decide) 3⟩,
   ⟨by decide, (view_topic_not_found_lookup stT1 1).2 { id := 1, title := ['t'] }
      (by decide)⟩⟩

/-- Claim C6 (confirmed): every successful `view_topic` page is ordered
newest-first by id descending, contains only messages of the requested
topic, and has the fixed size 10 (at most 10 rows, and exactly 10 whenever
the topic still holds at least `page * 10` messages); a missing `page`
query parameter defaults to page 1; on the concrete 25-message topic,
page 1 holds the 10 newest messages (ids 25..16) and page 3 the remaining
5 (ids 5..1). -/
theorem view_topic_page_structure (s : BoardState) (tid : Nat) (page : Int)
    (t : Topic) (items : List Message)
    (h : view_topic s tid page = .ok (t, items)) :
    items.Pairwise (fun a b => b.id ≤ a.id) ∧
    (∀ m ∈ items, m ∈ s.messages ∧ m.topic_id = tid) ∧
    items.length ≤ 10 ∧
    (page.toNat * 10 ≤ (s.messages.filter (fun m => m.topic_id == tid)).length →
      items.length = 10) ∧
    view_topic_route s tid none = view_topic s tid 1 ∧
    (view_topic st25 1 1).map (fun p => p.2.map Message.id) =
      .ok [25, 24, 23, 22, 21, 20, 19, 18, 17, 16] ∧
    (view_topic st25 1 3).map (fun p => p.2.map Message.id) =
      .ok [5, 4, 3, 2, 1] := by
  obtain ⟨hf, hp⟩ := view_topic_eq_ok h
  obtain ⟨hpage, hitems⟩ := paginate_eq_some hp
  subst hitems
  have hsub : List.Sublist
      (((topicMessagesDesc s tid).drop ((page - 1).toNat * 10)).take 10)
      (topicMessagesDesc s tid) :=
    (List.take_sublist _ _).trans (List.drop_sublist _ _)
  refine ⟨?_, ?_, List.length_take_le _ _, ?_, rfl, by decide, by decide⟩
  · exact List.Pairwise.sublist hsub pairwise_orderByIdDesc
  · intro m hm
    have hml : m ∈ topicMessagesDesc s tid := hsub.subset hm
    rw [topicMessagesDesc, mem_orderByIdDesc, List.mem_filter] at hml
    exact ⟨hml.1, by simpa using hml.2⟩
  · intro hcnt
    have hlen : (topicMessagesDesc s tid).length =
        (s.messages.filter (fun m => m.topic_id == tid)).length := by
      rw [topicMessagesDesc, length_orderByIdDesc]
    rw [List.length_take, List.length_drop, hlen]
    omega

/-- Witness instantiating `view_topic_page_structure` at page 2 of the
25-message topic (ids 15..6). -/
theorem view_topic_page_structure_witness :
    view_topic st25 1 2 = .ok ({ id := 1, title := ['t'] },
      (topicMessagesDesc st25 1).drop 10 |>.take 10) ∧
    (((topicMessagesDesc st25 1).drop 10 |>.take 10).Pairwise
        (fun a b => b.id ≤ a.id) ∧
      (∀ m ∈ (topicMessagesDesc st25 1).drop 10 |>.take 10,
        m ∈ st25.messages ∧ m.topic_id = 1) ∧
      ((topicMessagesDesc st25 1).drop 10 |>.take 10).length ≤ 10 ∧
      ((2 : Int).toNat * 10 ≤
          (st25.messages.filter (fun m => m.topic_id == 1)).length →
        ((topicMessagesDesc st25 1).drop 10 |>.take 10).length = 10) ∧
      view_topic_route st25 1 none = view_topic st25 1 1 ∧
      (view_topic st25 1 1).map (fun p => p.2.map Message.id) =
        .ok [25, 24, 23, 22, 21, 20, 19, 18, 17, 16] ∧
      (view_topic st25 1 3).map (fun p => p.2.map Message.id) =
        .ok [5, 4, 3, 2, 1]) :=
  ⟨by decide,
   view_topic_page_structure st25 1 2 { id := 1, title := ['t'] }
     ((topicMessagesDesc st25 1).drop 10 |>.take 10) (by decide)⟩

theorem find?_append_of_none {α : Type} {p : α → Bool} {l₁ l₂ : List α}
    (h : ∀ x ∈ l₁, p x = false) : (l₁ ++ l₂).find? p = l₂.find? p := by
  induction l₁ with
  | nil => rfl
  | cons a l ih =>
    rw [List.cons_append, List.find?_cons, h a (List.mem_cons_self a l)]
    exact ih (fun x hx => h x (List.mem_cons_of_mem a hx))

/-- Claim C5 (confirmed): creating a topic from a valid non-empty title of
at most 100 characters succeeds, redirects to the fresh id, and in the new
store the topic is immediately retrievable by that id — both by the table
lookup and through `view_topic` — and appears first in `list_topics`, which
orders all topics newest-first by id descending. -/
theorem create_topic_retrievable_and_first (s : BoardState) (title : PyStr)
    (hinv : ∀ t ∈ s.topics, t.id < s.nextTopicId)
    (ht : title ≠ []) (_hlen : title.length ≤ 100) :
    ∃ s' : BoardState,
      new_topic s (some title) = (s', .redirectToTopic s.nextTopicId) ∧
      s'.topics.find? (fun t => t.id == s.nextTopicId) =
        some { id := s.nextTopicId, title := title } ∧
      (∃ items, view_topic s' s.nextTopicId 1 =
        .ok ({ id := s.nextTopicId, title := title }, items)) ∧
      (list_topics s').head? = some { id := s.nextTopicId, title := title } ∧
      (list_topics s').Pairwise (fun a b => b.id ≤ a.id) ∧
      (∀ t : Topic, t ∈ list_topics s' ↔ t ∈ s'.topics) := by
  have heq := (create_topic_validation s (some title)).2 title rfl ht
  refine ⟨_, heq, ?_, ?_, ?_, ?_, ?_⟩
  · show (s.topics ++ [({ id := s.nextTopicId, title := title } : Topic)]).find?
      (fun t => t.id == s.nextTopicId) = _
    rw [find?_append_of_none, List.find?_cons]
    · simp
    · intro x hx
      have := hinv x hx
      simp only [beq_eq_false_iff_ne, ne_eq]
      omega
  · refine ⟨(topicMessagesDesc
        { s with topics := s.topics ++ [{ id := s.nextTopicId, title := title }],
                 nextTopicId := s.nextTopicId + 1 } s.nextTopicId).take 10, ?_⟩
    simp only [view_topic, paginate_page_one]
    rw [show ({ s with
        topics := s.topics ++ [{ id := s.nextTopicId, title := title }],
        nextTopicId := s.nextTopicId + 1 } : BoardState).topics.find?
          (fun t => t.id == s.nextTopicId) =
        some { id := s.nextTopicId, title := title } from ?_]
    rw [find?_append_of_none, List.find?_cons]
    · simp
    · intro x hx
      have := hinv x hx
      simp only [beq_eq_false_iff_ne, ne_eq]
      omega
  · exact head_orderByIdDesc_append_max (fun y hy => hinv y hy)
  · exact pairwise_orderByIdDesc
  · intro t
    exact mem_orderByIdDesc

/-- Witness instantiating `create_topic_retrievable_and_first` on the empty
store with the title `"a"`. -/
theorem create_topic_retrievable_and_first_witness :
    ((∀ t ∈ st0.topics, t.id < st0.nextTopicId) ∧
     (['a'] : PyStr) ≠ [] ∧ (['a'] : PyStr).length ≤ 100) ∧
    (∃ s' : BoardState,
      new_topic st0 (some ['a']) = (s', .redirectToTopic st0.nextTopicId) ∧
      s'.topics.find? (fun t => t.id == st0.nextTopicId) =
        some { id := st0.nextTopicId, title := ['a'] } ∧
      (∃ items, view_topic s' st0.nextTopicId 1 =
        .ok ({ id := st0.nextTopicId, title := ['a'] }, items)) ∧
      (list_topics s').head? = some { id := st0.nextTopicId, title := ['a'] } ∧
      (list_topics s').Pairwise (fun a b => b.id ≤ a.id) ∧
      (∀ t : Topic, t ∈ list_topics s' ↔ t ∈ s'.topics)) :=
  ⟨⟨by decide, by decide, by decide⟩,
   create_topic_retrievable_and_first st0 ['a'] (by decide) (by decide) (by decide)⟩

/-- Witness instantiating `add_message_truncates_content` with a 301
character content string. -/
theorem add_message_truncates_content_witness :
    (stT1.topics.find? (fun x => x.id == 1) = some { id := 1, title := ['t'] } ∧
     List.replicate 301 'x' ≠ ([] : PyStr)) ∧
    (∃ m : Message,
      (add_message stT1 1 (some (List.replicate 301 'x')) none).1.messages =
        stT1.messages ++ [m] ∧
      m.content = (List.replicate 301 'x').take 300 ∧
      (300 < (List.replicate 301 'x').length →
        m.content.length = 300 ∧
        ∃ rest, List.replicate 301 'x' = m.content ++ rest) ∧
      ((List.replicate 301 'x').length ≤ 300 →
        m.content = List.replicate 301 'x')) :=
  ⟨⟨by decide, by decide⟩,
   add_message_truncates_content stT1 1 (List.replicate 301 'x') none
     { id := 1, title := ['t'] } (by decide) (by decide)⟩

/-- Witness instantiating `add_message_truncates_username` with a 51
character username and with an omitted username. -/
theorem add_message_truncates_username_witness :
    ((['h'] : PyStr) ≠ [] ∧ 50 < (List.replicate 51 'u').length) ∧
    ((∃ m : Message,
        (add_message st0 1 (some ['h'])
          (some (List.replicate 51 'u'))).1.messages = st0.messages ++ [m] ∧
        m.username = some ((List.replicate 51 'u').take 50) ∧
        ((List.replicate 51 'u').take 50).length = 50 ∧
        ∃ rest, List.replicate 51 'u' = (List.replicate 51 'u').take 50 ++ rest) ∧
      (∃ m : Message,
        (add_message st0 1 (some ['h']) none).1.messages = st0.messages ++ [m] ∧
        m.username = none)) :=
  ⟨⟨by decide, by decide⟩,
   ⟨(add_message_truncates_username st0 1 ['h'] (by decide)).1
      (List.replicate 51 'u') (by decide),
    (add_message_truncates_username st0 1 ['h'] (by decide)).2⟩⟩

/-- Witness instantiating `add_message_empty_content_rejected` at an empty
content string. -/
theorem add_message_empty_content_rejected_witness :
    truthy (some []) = false ∧
    (add_message stT1 1 (some []) (some ['u']) =
      (stT1, .validationError "Message cannot be empty") ∧
     (add_message stT1 1 (some []) (some ['u'])).1.messages = stT1.messages ∧
     (add_message stT1 1 (some []) (some ['u'])).1.topics = stT1.topics) :=
  ⟨by decide,
   add_message_empty_content_rejected stT1 1 (some []) (some ['u']) (by decide)⟩

/-- Witness instantiating `add_message_empty_username_like_none` at the
content `"h"`. -/
theorem add_message_empty_username_like_none_witness :
    (['h'] : PyStr) ≠ [] ∧
    (add_message stT1 1 (some ['h']) (some []) =
       add_message stT1 1 (some ['h']) none ∧
     (∃ m : Message,
       (add_message stT1 1 (some ['h']) (some [])).1.messages =
         stT1.messages ++ [m] ∧
       m.username = none) ∧
     (add_message stT1 1 (some ['h']) (some [])).2 = .posted 1 none) :=
  ⟨by decide, add_message_empty_username_like_none stT1 1 ['h'] (by decide)⟩
